import Mathlib

/-!
Shallow embedding of `src/elro/mqtt.py` (class `MQTTPublisher`).

Byte payloads (`b'alarm'`, `b'offline'`, `b'online'`, `device.json.encode('utf-8')`)
are modelled as the `String` they encode: UTF-8 encoding is injective, so equality
and inequality of payloads are preserved by this representation.
-/

namespace Elro

/-- Quality-of-service level 1 (at-least-once), `distmqtt.mqtt.constants.QOS_1 = 0x01`. -/
def QOS_1 : Nat := 0x01

/-- A device as observed by the publisher: stable `id`, mutable `name`
(possibly empty) and the serialized state `device.json`. A value of this type
is one snapshot of the (mutable) device object. -/
structure Device where
  id : String
  name : String
  json : String
deriving DecidableEq

/-- The hub (external collaborator): lookup mapping from a device identity to
the device object, `hub.devices[device_id]`. -/
structure Hub where
  devices : String → Device

/-- The `MQTTPublisher` object state set up by `__init__`: `self.broker_host`
and `self.base_topic`. -/
structure MQTTPublisher where
  broker_host : String
  base_topic : String
deriving DecidableEq

/-- Python `s.startswith(pat)`: the characters of `pat` are an initial segment
of the characters of `s`. -/
def startswith (s pat : String) : Bool :=
  pat.data.isPrefixOf s.data

/-- The constructor `MQTTPublisher.__init__(broker_host, base_topic=None)`:
prepends the scheme `mqtt://` to the host unless already present, and stores
the empty string when `base_topic` is omitted (`None`). -/
def MQTTPublisher.init (broker_host : String) (base_topic : Option String) :
    MQTTPublisher :=
  { broker_host :=
      if startswith broker_host "mqtt://" then broker_host
      else "mqtt://" ++ broker_host,
    base_topic :=
      match base_topic with
      | none => ""
      | some b => b }

/-- Method `topic(self, last_hierarchy)`: the f-string
`f"{self.base_topic}/elro/{last_hierarchy}"`. -/
def MQTTPublisher.topic (p : MQTTPublisher) (last_hierarchy : String) : String :=
  p.base_topic ++ "/elro/" ++ last_hierarchy

/-- Method `topic_name(self, device)`: anchors the topic to the device name,
or to the device id when the name is the empty string. -/
def MQTTPublisher.topic_name (p : MQTTPublisher) (device : Device) : String :=
  p.topic (if device.name = "" then device.id else device.name)

/-- One MQTT publish as seen on the wire: topic, payload (see the header note
on byte payloads), quality-of-service level, retain flag. `client.publish`
without an explicit `retain` argument publishes with `retain = false`. -/
structure PublishEvent where
  topic : String
  payload : String
  qos : Nat
  retain : Bool
deriving DecidableEq

/-- Body of `handle_device_alarm` after `device.alarm.wait()` returns, applied
to the device snapshot current at that moment: publishes `b'alarm'` at `QOS_1`
on the freshly recomputed `topic_name`. -/
def MQTTPublisher.handle_device_alarm (p : MQTTPublisher) (device : Device) :
    PublishEvent :=
  { topic := p.topic_name device, payload := "alarm", qos := QOS_1, retain := false }

/-- Body of `handle_device_update` after `device.updated.wait()` returns,
applied to the device snapshot current at that moment: publishes
`device.json.encode('utf-8')` at `QOS_1` on the freshly recomputed
`topic_name`. -/
def MQTTPublisher.handle_device_update (p : MQTTPublisher) (device : Device) :
    PublishEvent :=
  { topic := p.topic_name device, payload := device.json, qos := QOS_1,
    retain := false }

/-- The `while True` loop of `device_alarm_task`: each consumed firing of the
alarm condition runs `handle_device_alarm` once. `firings` lists the device
snapshot at each consumed firing, in order. -/
def MQTTPublisher.device_alarm_task (p : MQTTPublisher) (firings : List Device) :
    List PublishEvent :=
  firings.map p.handle_device_alarm

/-- The `while True` loop of `device_update_task`: each consumed firing of the
update condition runs `handle_device_update` once. -/
def MQTTPublisher.device_update_task (p : MQTTPublisher) (firings : List Device) :
    List PublishEvent :=
  firings.map p.handle_device_update

/-- The `will` entry of the config dict built in `handle_hub_events`. -/
structure WillConfig where
  topic : String
  message : String
  qos : Nat
  retain : Bool
deriving DecidableEq

/-- The config dict passed to `open_mqttclient` in `handle_hub_events`. -/
structure BrokerConfig where
  uri : String
  will : WillConfig
deriving DecidableEq

/-- The config dict built at the top of `handle_hub_events`: the normalized
broker URI and the last-will declaration
`{topic: self.topic('status'), message: b'offline', qos: 0x01, retain: True}`. -/
def MQTTPublisher.connectionConfig (p : MQTTPublisher) : BrokerConfig :=
  { uri := p.broker_host,
    will := { topic := p.topic "status", message := "offline", qos := 0x01,
              retain := true } }

/-- Which half of a device watcher a spawned task is:
`device_update_task` or `device_alarm_task`. -/
inductive WatcherKind where
  | update
  | alarm
deriving DecidableEq

/-- A watcher task spawned into the nursery: its kind and the stable `id` of
the device object it holds a reference to. -/
structure Watcher where
  kind : WatcherKind
  devId : String
deriving DecidableEq

/-- Observable events of `handle_hub_events` and of the watcher tasks it
spawns, in trace order. -/
inductive Event where
  | connect (cfg : BrokerConfig)
  | statusPublish (e : PublishEvent)
  | spawn (kind : WatcherKind) (device : Device)
  | watcherPublish (kind : WatcherKind) (e : PublishEvent)
deriving DecidableEq

/-- Events emitted by watcher tasks or by the discovery loop on their behalf,
as opposed to connection-lifecycle events. -/
def Event.isDeviceEvent : Event → Bool
  | .spawn _ _ => true
  | .watcherPublish _ _ => true
  | _ => false

/-- Test for a spawn event. -/
def Event.isSpawn : Event → Bool
  | .spawn _ _ => true
  | _ => false

/-- The scheduler-visible state of the running system after the connection is
open: the unconsumed tail of the discovery sequence and the watcher tasks
spawned so far (in spawn order). -/
structure RunState where
  pending : List String
  watchers : List Watcher
deriving DecidableEq

/-- One cooperative-scheduling choice: either the discovery loop consumes the
next device identity from `hub.new_device_receive_ch`, or the `j`-th spawned
watcher task has its condition fire and consumes it, `snap` being the state of
its device object at that moment. -/
inductive Choice where
  | discover
  | fire (j : Nat) (snap : Device)
deriving DecidableEq

/-- The publish a watcher task of the given kind performs on a consumed
firing: `handle_device_alarm` or `handle_device_update` on the current device
snapshot. -/
def MQTTPublisher.fireEvent (p : MQTTPublisher) (kind : WatcherKind)
    (snap : Device) : PublishEvent :=
  match kind with
  | .alarm => p.handle_device_alarm snap
  | .update => p.handle_device_update snap

/-- Run of the post-connection phase of `handle_hub_events` under a schedule.
A `discover` choice executes one iteration of the `async for` body: look the
device up in `hub.devices`, `start_soon(device_update_task, ...)` then
`start_soon(device_alarm_task, ...)`, and continue consuming. A `fire j snap`
choice lets the `j`-th spawned watcher consume a firing of its condition and
publish; it only fires when `snap` is a snapshot of the device the watcher
references (same stable id). Blocked or ill-formed choices emit nothing. -/
def MQTTPublisher.runSteps (p : MQTTPublisher) (hub : Hub) :
    RunState → List Choice → List Event
  | _, [] => []
  | st, Choice.discover :: sched =>
    match st.pending with
    | [] => p.runSteps hub st sched
    | i :: rest =>
      Event.spawn .update (hub.devices i) :: Event.spawn .alarm (hub.devices i) ::
      p.runSteps hub
        ⟨rest, st.watchers ++ [⟨.update, (hub.devices i).id⟩, ⟨.alarm, (hub.devices i).id⟩]⟩
        sched
  | st, Choice.fire j snap :: sched =>
    match st.watchers[j]? with
    | none => p.runSteps hub st sched
    | some w =>
      if snap.id = w.devId then
        Event.watcherPublish w.kind (p.fireEvent w.kind snap) :: p.runSteps hub st sched
      else
        p.runSteps hub st sched

/-- Full trace of `handle_hub_events`: build the config with the last will,
open the client, synchronously publish the retained `b'online'` marker on
`topic('status')` at `QOS_1`, then run the discovery loop and the watcher
tasks it spawns under the scheduler. -/
def MQTTPublisher.handle_hub_events (p : MQTTPublisher) (hub : Hub)
    (ids : List String) (sched : List Choice) : List Event :=
  Event.connect p.connectionConfig ::
  Event.statusPublish ⟨p.topic "status", "online", QOS_1, true⟩ ::
  p.runSteps hub ⟨ids, []⟩ sched

/-! Theorems. -/

/-- Helper: for a fixed publisher, `topic` is injective in the suffix. -/
theorem topic_inj (p : MQTTPublisher) {a b : String} (h : p.topic a = p.topic b) :
    a = b := by
  unfold MQTTPublisher.topic at h
  have h2 := congrArg String.data h
  simp only [String.data_append] at h2
  exact String.ext (List.append_cancel_left h2)

/-- C6: for every suffix `s`, `topic(s)` is the pure concatenation
`base_topic ++ "/elro/" ++ s`, with no error conditions and no side effects;
with the empty base topic, `topic("status")` is the leading-slash form
`"/elro/status"`. -/
theorem C6_topic_concat :
    (∀ (p : MQTTPublisher) (s : String), p.topic s = p.base_topic ++ "/elro/" ++ s) ∧
    (MQTTPublisher.mk "mqtt://h" "").topic "status" = "/elro/status" :=
  ⟨fun _ _ => rfl, rfl⟩

/-- C3: `topic_name` returns `topic(device.name)` when the name is non-empty
and `topic(device.id)` when the name is empty; with base `home`, name `""`
and id `"42"` it returns `home/elro/42`, and with name `Kitchen` it returns
`home/elro/Kitchen`. -/
theorem C3_topic_name_spec :
    (∀ (p : MQTTPublisher) (d : Device),
        p.topic_name d = if d.name = "" then p.topic d.id else p.topic d.name) ∧
    (MQTTPublisher.mk "mqtt://h" "home").topic_name ⟨"42", "", "{}"⟩ = "home/elro/42" ∧
    (MQTTPublisher.mk "mqtt://h" "home").topic_name ⟨"42", "Kitchen", "{}"⟩ =
      "home/elro/Kitchen" := by
  refine ⟨fun p d => ?_, by decide, by decide⟩
  unfold MQTTPublisher.topic_name
  split <;> rfl

/-- C8 counterexample: two distinct devices that share the name `Dup` are
mapped to the same topic, so the topic for one device can equal the topic for
a different device. -/
theorem C8_counterexample :
    (⟨"1", "Dup", "a"⟩ : Device) ≠ ⟨"2", "Dup", "b"⟩ ∧
    (MQTTPublisher.mk "mqtt://h" "home").topic_name ⟨"1", "Dup", "a"⟩ =
      (MQTTPublisher.mk "mqtt://h" "home").topic_name ⟨"2", "Dup", "b"⟩ := by
  decide

/-- C8 (amended): two devices whose topic anchors differ (the name, or the id
when the name is empty) always get distinct topics, so firings for two such
devices publish to the correct per-device topic with no cross-device
interference. -/
theorem C8_distinct_anchor_distinct_topic (p : MQTTPublisher) (A B : Device)
    (h : (if A.name = "" then A.id else A.name) ≠
         (if B.name = "" then B.id else B.name)) :
    p.topic_name A ≠ p.topic_name B :=
  fun hEq => h (topic_inj p hEq)

/-- Witness for C8 (amended) at concrete devices with distinct names. -/
theorem C8_distinct_anchor_distinct_topic_witness :
    (MQTTPublisher.mk "mqtt://h" "home").topic_name ⟨"1", "A", "a"⟩ ≠
      (MQTTPublisher.mk "mqtt://h" "home").topic_name ⟨"2", "B", "b"⟩ :=
  C8_distinct_anchor_distinct_topic (MQTTPublisher.mk "mqtt://h" "home")
    ⟨"1", "A", "a"⟩ ⟨"2", "B", "b"⟩ (by decide)

/-- C4 counterexample: renaming a device from `X` to the empty string between
two update events changes its name but not its topic, because the empty name
falls back to the id `X`: both update publishes use topic `home/elro/X`. -/
theorem C4_counterexample :
    (Device.mk "X" "X" "s1").name ≠ (Device.mk "X" "" "s2").name ∧
    (Device.mk "X" "X" "s1").id = (Device.mk "X" "" "s2").id ∧
    ((MQTTPublisher.mk "mqtt://h" "home").device_update_task
        [⟨"X", "X", "s1"⟩, ⟨"X", "", "s2"⟩]).map PublishEvent.topic =
      ["home/elro/X", "home/elro/X"] := by
  decide

/-- C4 (amended): the topic is recomputed from the current name (or id) at
every publish, never cached — the two update publishes of a device before and
after a rename use exactly the topic names of the respective snapshots — and
the second topic differs from the first whenever the rename changes the topic
anchor (the name, or the id when the name is empty). -/
theorem C4_topic_recomputed (p : MQTTPublisher) (d d' : Device)
    (_hid : d.id = d'.id) :
    (p.device_update_task [d, d']).map PublishEvent.topic =
      [p.topic_name d, p.topic_name d'] ∧
    ((if d.name = "" then d.id else d.name) ≠
        (if d'.name = "" then d'.id else d'.name) →
      p.topic_name d ≠ p.topic_name d') :=
  ⟨rfl, fun h hEq => h (topic_inj p hEq)⟩

/-- Witness for C4 (amended): a rename from `Kitchen` to `Bath` (same id)
makes the second update publish use a different topic. -/
theorem C4_topic_recomputed_witness :
    ((MQTTPublisher.mk "mqtt://h" "home").device_update_task
        [⟨"X", "Kitchen", "s1"⟩, ⟨"X", "Bath", "s2"⟩]).map PublishEvent.topic =
      [(MQTTPublisher.mk "mqtt://h" "home").topic_name ⟨"X", "Kitchen", "s1"⟩,
       (MQTTPublisher.mk "mqtt://h" "home").topic_name ⟨"X", "Bath", "s2"⟩] ∧
    (MQTTPublisher.mk "mqtt://h" "home").topic_name ⟨"X", "Kitchen", "s1"⟩ ≠
      (MQTTPublisher.mk "mqtt://h" "home").topic_name ⟨"X", "Bath", "s2"⟩ :=
  ⟨(C4_topic_recomputed (MQTTPublisher.mk "mqtt://h" "home")
      ⟨"X", "Kitchen", "s1"⟩ ⟨"X", "Bath", "s2"⟩ rfl).1,
   (C4_topic_recomputed (MQTTPublisher.mk "mqtt://h" "home")
      ⟨"X", "Kitchen", "s1"⟩ ⟨"X", "Bath", "s2"⟩ rfl).2 (by decide)⟩

/-- C10: the constructor stores the broker host unchanged when it already
starts with `mqtt://`, and prepends `mqtt://` otherwise; omitting the base
topic stores the empty string, so every derived topic is then the
leading-slash form `/elro/...`. -/
theorem C10_init_normalization (h : String) :
    (startswith h "mqtt://" = true → (MQTTPublisher.init h none).broker_host = h) ∧
    (startswith h "mqtt://" = false →
      (MQTTPublisher.init h none).broker_host = "mqtt://" ++ h) ∧
    (MQTTPublisher.init h none).base_topic = "" ∧
    (∀ s, (MQTTPublisher.init h none).topic s = "/elro/" ++ s) := by
  refine ⟨fun hs => ?_, fun hs => ?_, rfl, fun s => rfl⟩
  · simp [MQTTPublisher.init, hs]
  · simp [MQTTPublisher.init, hs]

/-- Witness for C10 at a bare IP host and at a host already carrying the
scheme. -/
theorem C10_init_normalization_witness :
    (MQTTPublisher.init "192.168.1.2" none).broker_host = "mqtt://192.168.1.2" ∧
    (MQTTPublisher.init "mqtt://box" none).broker_host = "mqtt://box" ∧
    (MQTTPublisher.init "192.168.1.2" none).base_topic = "" ∧
    (MQTTPublisher.init "192.168.1.2" none).topic "status" = "/elro/status" :=
  ⟨(C10_init_normalization "192.168.1.2").2.1 (by decide),
   (C10_init_normalization "mqtt://box").1 (by decide),
   (C10_init_normalization "192.168.1.2").2.2.1,
   (C10_init_normalization "192.168.1.2").2.2.2 "status"⟩

/-- C5: the broker connection is opened with the stored (normalized) broker
URI and a last will on `topic('status')` with payload `offline`, quality of
service at-least-once (`QOS_1`) and retain set. -/
theorem C5_last_will (p : MQTTPublisher) :
    p.connectionConfig.uri = p.broker_host ∧
    p.connectionConfig.will =
      ⟨p.topic "status", "offline", QOS_1, true⟩ :=
  ⟨rfl, rfl⟩

/-- C9: each consumed firing of the update condition yields exactly one
publish (trace length equals the number of consumed firings), at `QOS_1`,
whose payload is the serialized state `json` of the device snapshot current at
that publish — read at publish time, not at spawn time. -/
theorem C9_update_payload_current (p : MQTTPublisher) (firings : List Device) :
    (p.device_update_task firings).length = firings.length ∧
    ∀ k (hk : k < firings.length),
      (p.device_update_task firings)[k]? =
        some ⟨p.topic_name firings[k], firings[k].json, QOS_1, false⟩ := by
  refine ⟨by simp [MQTTPublisher.device_update_task], fun k hk => ?_⟩
  rw [MQTTPublisher.device_update_task, List.getElem?_map,
      List.getElem?_eq_getElem hk]
  rfl

/-- Witness for C9: the second update publish of a device whose state changed
from `j1` to `j2` between the firings carries the later payload `j2`. -/
theorem C9_update_payload_current_witness :
    ((MQTTPublisher.mk "mqtt://h" "home").device_update_task
        [⟨"1", "A", "j1"⟩, ⟨"1", "A", "j2"⟩]).length = 2 ∧
    ((MQTTPublisher.mk "mqtt://h" "home").device_update_task
        [⟨"1", "A", "j1"⟩, ⟨"1", "A", "j2"⟩])[1]? =
      some ⟨(MQTTPublisher.mk "mqtt://h" "home").topic_name ⟨"1", "A", "j2"⟩,
            "j2", QOS_1, false⟩ :=
  ⟨(C9_update_payload_current (MQTTPublisher.mk "mqtt://h" "home")
      [⟨"1", "A", "j1"⟩, ⟨"1", "A", "j2"⟩]).1,
   (C9_update_payload_current (MQTTPublisher.mk "mqtt://h" "home")
      [⟨"1", "A", "j1"⟩, ⟨"1", "A", "j2"⟩]).2 1 (by decide)⟩

/-- C1: scheduling N consumed firings of an alarm watcher task (in sequence,
each consumed before the next fires, with `snaps` the device snapshots at the
firings) produces exactly the N publishes of the literal payload `alarm` at
`QOS_1`, each to the topic recomputed from the device snapshot current at that
firing. -/
theorem C1_alarm_publishes (p : MQTTPublisher) (hub : Hub) (st : RunState)
    (j : Nat) (i : String) (snaps : List Device)
    (hw : st.watchers[j]? = some ⟨.alarm, i⟩)
    (hsnap : ∀ s ∈ snaps, s.id = i) :
    p.runSteps hub st (snaps.map (Choice.fire j)) =
      snaps.map (fun s => Event.watcherPublish .alarm
        ⟨p.topic_name s, "alarm", QOS_1, false⟩) ∧
    (p.runSteps hub st (snaps.map (Choice.fire j))).length = snaps.length := by
  have key : p.runSteps hub st (snaps.map (Choice.fire j)) =
      snaps.map (fun s => Event.watcherPublish .alarm
        ⟨p.topic_name s, "alarm", QOS_1, false⟩) := by
    induction snaps with
    | nil => rfl
    | cons s ss ih =>
      have hs : s.id = i := hsnap s (List.mem_cons_self s ss)
      have ih2 := ih (fun x hx => hsnap x (List.mem_cons_of_mem s hx))
      simp [MQTTPublisher.runSteps, hw, hs, MQTTPublisher.fireEvent,
            MQTTPublisher.handle_device_alarm, ih2]
  exact ⟨key, by rw [key]; simp⟩

/-- Witness for C1: two consecutive alarm firings of the single spawned alarm
watcher yield exactly the two alarm publishes, each on the topic current at
its firing. -/
theorem C1_alarm_publishes_witness :
    (MQTTPublisher.mk "mqtt://h" "home").runSteps ⟨fun _ => ⟨"1", "A", "x"⟩⟩
        ⟨[], [⟨.alarm, "1"⟩]⟩
        ([⟨"1", "A", "x"⟩, ⟨"1", "B", "x"⟩].map (Choice.fire 0)) =
      [Event.watcherPublish .alarm ⟨"home/elro/A", "alarm", QOS_1, false⟩,
       Event.watcherPublish .alarm ⟨"home/elro/B", "alarm", QOS_1, false⟩] ∧
    ((MQTTPublisher.mk "mqtt://h" "home").runSteps ⟨fun _ => ⟨"1", "A", "x"⟩⟩
        ⟨[], [⟨.alarm, "1"⟩]⟩
        ([⟨"1", "A", "x"⟩, ⟨"1", "B", "x"⟩].map (Choice.fire 0))).length = 2 :=
  C1_alarm_publishes (MQTTPublisher.mk "mqtt://h" "home")
    ⟨fun _ => ⟨"1", "A", "x"⟩⟩ ⟨[], [⟨.alarm, "1"⟩]⟩ 0 "1"
    [⟨"1", "A", "x"⟩, ⟨"1", "B", "x"⟩] (by decide) (by decide)

/-- C2: on every successful connection, the retained `online` marker is
published on `topic('status')` at `QOS_1` at trace position 1 (right after the
connect), and every device-specific event — a spawn by the discovery loop or a
publish by a watcher task — occurs strictly later in the trace, under every
schedule. -/
theorem C2_online_before_device_events (p : MQTTPublisher) (hub : Hub)
    (ids : List String) (sched : List Choice) :
    (p.handle_hub_events hub ids sched)[1]? =
      some (Event.statusPublish ⟨p.topic "status", "online", QOS_1, true⟩) ∧
    ∀ k e, (p.handle_hub_events hub ids sched)[k]? = some e →
      e.isDeviceEvent = true → 1 < k := by
  refine ⟨by simp [MQTTPublisher.handle_hub_events], fun k e hk he => ?_⟩
  match k with
  | 0 =>
    have h0 : e = Event.connect p.connectionConfig := by
      simpa [MQTTPublisher.handle_hub_events] using hk.symm
    subst h0
    simp [Event.isDeviceEvent] at he
  | 1 =>
    have h1 : e = Event.statusPublish ⟨p.topic "status", "online", QOS_1, true⟩ := by
      simpa [MQTTPublisher.handle_hub_events] using hk.symm
    subst h1
    simp [Event.isDeviceEvent] at he
  | n + 2 => omega

/-- Witness for C2: in a concrete run with one discovered device, the online
marker sits at position 1 and the first device event (a spawn) at
position 2. -/
theorem C2_online_before_device_events_witness :
    ((MQTTPublisher.mk "mqtt://h" "home").handle_hub_events
        ⟨fun _ => ⟨"1", "n", "x"⟩⟩ ["1"] [Choice.discover])[1]? =
      some (Event.statusPublish ⟨"home/elro/status", "online", QOS_1, true⟩) ∧
    1 < 2 :=
  ⟨(C2_online_before_device_events (MQTTPublisher.mk "mqtt://h" "home")
      ⟨fun _ => ⟨"1", "n", "x"⟩⟩ ["1"] [Choice.discover]).1,
   (C2_online_before_device_events (MQTTPublisher.mk "mqtt://h" "home")
      ⟨fun _ => ⟨"1", "n", "x"⟩⟩ ["1"] [Choice.discover]).2 2
      (Event.spawn .update ⟨"1", "n", "x"⟩) (by decide) (by decide)⟩

/-- C7: one iteration of the discovery loop on identity `i` looks the device
up in the hub registry, spawns exactly the two watcher tasks for it (update
task then alarm task, in source order) into the shared scope, and continues
with the rest of the schedule without waiting for them; a run that discovers
`n` identities produces exactly `2 * n` spawn events. -/
theorem C7_discovery_spawns_two (p : MQTTPublisher) (hub : Hub) :
    (∀ i pend ws sched,
      p.runSteps hub ⟨i :: pend, ws⟩ (Choice.discover :: sched) =
        Event.spawn .update (hub.devices i) :: Event.spawn .alarm (hub.devices i) ::
        p.runSteps hub
          ⟨pend, ws ++ [⟨.update, (hub.devices i).id⟩, ⟨.alarm, (hub.devices i).id⟩]⟩
          sched) ∧
    (∀ (ids : List String) (ws : List Watcher),
      ((p.runSteps hub ⟨ids, ws⟩ (ids.map fun _ => Choice.discover)).countP
          Event.isSpawn) = 2 * ids.length) := by
  refine ⟨fun i pend ws sched => rfl, fun ids => ?_⟩
  induction ids with
  | nil => intro ws; rfl
  | cons i rest ih =>
    intro ws
    have step : p.runSteps hub ⟨i :: rest, ws⟩
        (Choice.discover :: rest.map fun _ => Choice.discover) =
        Event.spawn .update (hub.devices i) :: Event.spawn .alarm (hub.devices i) ::
        p.runSteps hub
          ⟨rest, ws ++ [⟨.update, (hub.devices i).id⟩, ⟨.alarm, (hub.devices i).id⟩]⟩
          (rest.map fun _ => Choice.discover) := rfl
    rw [List.map_cons, step, List.countP_cons, List.countP_cons, ih]
    simp [Event.isSpawn, List.length_cons]
    omega

end Elro
